import Mathlib

/-!
Verification development for the Exoplanet Transit Detector pipeline.

The Python sources are shallowly embedded: numpy arrays become lists of an
IEEE-style value type, dictionary-shaped configuration becomes structures of
optional fields, the external BLS search (astropy BoxLeastSquares.autopower
plus the argmax extraction) is abstracted as a function parameter that may
fail (returning none models a raised exception), and every swallow-and-log
except branch becomes an explicit none / false result.
-/

namespace ExoTransit

/-- Scalar sample value as stored in the FITS arrays: an IEEE float is either
NaN, one of the two infinities, or an ordinary (finite) number, modelled as a
rational. -/
inductive Val where
  | nan : Val
  | inf : Val
  | ninf : Val
  | num : ℚ → Val
deriving DecidableEq, Repr

/-- Embedding of np.isnan on a single value. -/
def Val.isnan : Val → Bool
  | .nan => true
  | _ => false

/-- Embedding of np.isfinite on a single value: true only on ordinary
numbers, false on NaN and on both infinities. -/
def Val.isfinite : Val → Bool
  | .num _ => true
  | _ => false

/-- A column extracted from the FITS binary table: either one-dimensional, or
two-dimensional with at least one sub-column (each row is its first entry
paired with the remaining entries). -/
inductive Col where
  | one : List Val → Col
  | many : List (Val × List Val) → Col

/-- Shape normalization from process_lightcurve.py: a column with an extra
dimension is collapsed by selecting the first sub-column (arr Lbrack :, 0
Rbrack); a one-dimensional column is left unchanged. -/
def Col.flatten : Col → List Val
  | .one xs => xs
  | .many rows => rows.map Prod.fst

/-- numpy boolean-mask indexing: keep exactly the entries whose mask position
is true. The source only applies it with a mask of matching length; a length
mismatch raises in numpy and is guarded explicitly at each use site below. -/
def boolMask (mask : List Bool) (xs : List Val) : List Val :=
  (mask.zip xs).filterMap fun p => if p.1 then some p.2 else none

/-- Validity mask of process_lightcurve.py, in source order:
valid = NOT isnan(flux) AND NOT isnan(time). -/
def pValid (flux time : List Val) : List Bool :=
  List.zipWith (fun fv tv => (!fv.isnan) && (!tv.isnan)) flux time

/-- Validity mask of analyze_transits.py, in source order:
valid = NOT isnan(time) AND NOT isnan(flux). -/
def aValid (time flux : List Val) : List Bool :=
  List.zipWith (fun tv fv => (!tv.isnan) && (!fv.isnan)) time flux

/-- The cleaned triplet that process_lightcurve persists as the processed
FITS artifact. -/
structure ProcessedSeries where
  time : List Val
  flux : List Val
  fluxErr : List Val
deriving DecidableEq, Repr

/-- Embedding of process_lightcurve (process_lightcurve.py): flatten each
column to one dimension, compute the validity mask from flux and time, apply
the one mask to all three sequences, persist the triplet and return True.
Result some ps models returning True with ps persisted; none models the
swallow-and-log except branch returning False. The length guards model the
numpy exceptions on mismatched shapes (broadcasting the mask conjunction and
boolean indexing both raise). There is no emptiness check: a mask selecting
zero samples still succeeds. -/
def processLightcurve (timeCol fluxCol errCol : Col) : Option ProcessedSeries :=
  let time := timeCol.flatten
  let flux := fluxCol.flatten
  let fluxErr := errCol.flatten
  if time.length ≠ flux.length then none
  else
    let valid := pValid flux time
    if fluxErr.length ≠ valid.length then none
    else some ⟨boolMask valid time, boolMask valid flux, boolMask valid fluxErr⟩

/-- Embedding of the manual extraction script manually_extract_fits.py: same
flatten and mask steps, but it raises ValueError (No valid data points found)
when the mask selects zero samples, before applying the mask. The raise is
modelled as none. -/
def manualExtract (timeCol : Col) (flux fluxErr : List Val) : Option ProcessedSeries :=
  let time := timeCol.flatten
  if time.length ≠ flux.length then none
  else
    let valid := pValid flux time
    if valid.count true = 0 then none
    else if fluxErr.length ≠ valid.length then none
    else some ⟨boolMask valid time, boolMask valid flux, boolMask valid fluxErr⟩

/-- The bls_parameters sub-document of config.json: either entry may be
missing. A range is an ordered pair (start, end). -/
structure BLSParams where
  period_range : Option (ℚ × ℚ)
  duration_range : Option (ℚ × ℚ)
deriving DecidableEq, Repr

/-- The configuration document as consumed by run_bls: the bls_parameters key
itself may be missing. -/
structure Config where
  bls_parameters : Option BLSParams
deriving DecidableEq, Repr

/-- config.get with default of an empty dictionary, then get of period_range
with the built-in default: the period range run_bls actually validates. -/
def effectivePeriodRange (cfg : Config) : ℚ × ℚ :=
  ((cfg.bls_parameters.getD ⟨none, none⟩).period_range).getD (1/2, 30)

/-- config.get with default of an empty dictionary, then get of
duration_range with the built-in default: the duration range run_bls actually
passes to the search. -/
def effectiveDurationRange (cfg : Config) : ℚ × ℚ :=
  ((cfg.bls_parameters.getD ⟨none, none⟩).duration_range).getD (1/100, 1/10)

/-- The result record of transit detection: four fields, each a number or the
explicit absent marker (None in the source, none here). -/
structure BLSRecord where
  period : Option ℚ
  duration : Option ℚ
  depth : Option ℚ
  power : Option ℚ
deriving DecidableEq, Repr

/-- empty_results from transit_detection.py: the all-absent record returned
for failed detections. -/
def empty_results : BLSRecord :=
  ⟨none, none, none, none⟩

/-- Abstraction of the external search: BoxLeastSquares(time, flux, flux_err)
followed by autopower(duration_range) and the argmax extraction of the best
(period, duration, depth, power). none models an exception raised inside this
external step. -/
def Search : Type :=
  List Val → List Val → List Val → ℚ × ℚ → Option (ℚ × ℚ × ℚ × ℚ)

/-- Packaging of the best-fit tuple into the returned record; the none branch
is the swallow-and-log except clause of run_bls returning empty_results. -/
def extractRecord : Option (ℚ × ℚ × ℚ × ℚ) → BLSRecord
  | none => empty_results
  | some (p, d, dep, pow) => ⟨some p, some d, some dep, some pow⟩

/-- Embedding of run_bls (transit_detection.py): validate emptiness, then
length consistency, then read the configured or default parameter ranges,
validate the period range, and run the abstracted search, catching any
failure as empty_results. The function is total: every branch, including the
except branch, yields a record. -/
def run_bls (time flux fluxErr : List Val) (cfg : Config) (search : Search) : BLSRecord :=
  if time.length = 0 ∨ flux.length = 0 ∨ fluxErr.length = 0 then empty_results
  else if time.length ≠ flux.length ∨ flux.length ≠ fluxErr.length then empty_results
  else if (effectivePeriodRange cfg).1 ≥ (effectivePeriodRange cfg).2 then empty_results
  else extractRecord (search time flux fluxErr (effectiveDurationRange cfg))

/-- Embedding of the gate inside analyze_transit (analyze_transits.py): mask
the three columns read from the processed file by the time/flux validity
mask, reject (return False, modelled none) when fewer than 10 valid samples
remain, otherwise invoke run_bls on the masked data and report success with
its record. The first guard models the numpy exception on mismatched shapes,
caught by the outer except and reported as failure. -/
def analyze_transit (time flux fluxErr : List Val) (cfg : Config) (search : Search) :
    Option BLSRecord :=
  if time.length ≠ flux.length then none
  else
    let valid := aValid time flux
    if fluxErr.length ≠ valid.length then none
    else
      let t := boolMask valid time
      let f := boolMask valid flux
      let e := boolMask valid fluxErr
      if t.length < 10 then none
      else some (run_bls t f e cfg search)

/-- A JSON scalar as it appears in a result record: the explicit null marker
or a number. -/
inductive Jval where
  | null : Jval
  | num : ℚ → Jval
deriving DecidableEq, Repr

/-- A flat JSON object: association list from keys to values, looked up by
first occurrence. -/
abbrev Jobj : Type :=
  List (String × Jval)

/-- Python dict.get(key, default): the stored value when the key is present
(even when that value is null), the default only when the key is missing. -/
def jget (obj : Jobj) (key : String) (default : Jval) : Jval :=
  match obj.find? (fun kv => kv.1 == key) with
  | some kv => kv.2
  | none => default

/-- Embedding of the metric extraction in generate_visualization
(generate_plot.py): the list of four values handed to plt.bar, produced by
results.get of each field with default 0. -/
def generate_visualization (results : Jobj) : List Jval :=
  [jget results "period" (.num 0), jget results "duration" (.num 0),
   jget results "depth" (.num 0), jget results "power" (.num 0)]

/-- The four field names the visualization reads, in plotting order. -/
def vizKeys : List String :=
  ["period", "duration", "depth", "power"]

/-- Environment of one db_writer run: which input files exist, whether the
results JSON is readable, and whether each external sink call would succeed
if attempted. -/
structure SinkEnv where
  processedPngExists : Bool
  metricsPngExists : Bool
  resultsJsonExists : Bool
  jsonReadOk : Bool
  minioProcessedOk : Bool
  minioVisualizeOk : Bool
  oracleOk : Bool
deriving DecidableEq, Repr

/-- Observable outcome of one db_writer run: for each sink call, none when it
was never attempted and some b when it was attempted with result b; the
process exit code; and whether the workflow-completed log line was reached. -/
structure PublishTrace where
  minioProcessed : Option Bool
  minioVisualize : Option Bool
  oracleInsert : Option Bool
  exitCode : ℕ
  completedLog : Bool
deriving DecidableEq, Repr

/-- Embedding of upload_to_minio (db_writer.py): False when the file is
missing, otherwise the outcome of the store call (every exception is caught
and returned as False). -/
def upload_to_minio (fileExists sinkOk : Bool) : Bool :=
  if fileExists = false then false else sinkOk

/-- Embedding of insert_results_into_oracle (db_writer.py): the outcome of
the insert, with every exception caught and returned as False. -/
def insert_results_into_oracle (oracleOk : Bool) : Bool :=
  oracleOk

/-- Embedding of main (db_writer.py): validate the three input paths
(returning early, still exit 0, when one is missing), attempt both object
store uploads, then open the results JSON and attempt the metadata insert.
All three return values are discarded; the outer except only catches the
JSON read; the script never sets a non-zero exit code. -/
def db_writer_main (env : SinkEnv) : PublishTrace :=
  if env.processedPngExists = false then ⟨none, none, none, 0, false⟩
  else if env.metricsPngExists = false then ⟨none, none, none, 0, false⟩
  else if env.resultsJsonExists = false then ⟨none, none, none, 0, false⟩
  else
    let u1 := upload_to_minio env.processedPngExists env.minioProcessedOk
    let u2 := upload_to_minio env.metricsPngExists env.minioVisualizeOk
    if env.jsonReadOk = false then ⟨some u1, some u2, none, 0, false⟩
    else ⟨some u1, some u2, some (insert_results_into_oracle env.oracleOk), 0, true⟩

/-- Outcome of the acquisition batch driver: the boolean returned by main and
whether trigger_next_module was invoked. -/
structure FetchOutcome where
  status : Bool
  nextTriggered : Bool
deriving DecidableEq, Repr

/-- Embedding of main (fetch_star_data.py): bail out on a missing config, a
failed logging setup, or an empty or unloadable identifier list; otherwise
fetch each star (fetch s = some t models a successful fetch taking t
seconds, none models a per-item failure, logged, batch continues), count the
successes, and trigger the next module exactly when at least one succeeded,
returning that same condition as the batch status. The whole body sits in a
try/except, so the function is total and never raises. -/
def fetch_main (configOk loggingOk : Bool) (starIds : Option (List String))
    (fetch : String → Option ℚ) : FetchOutcome :=
  if configOk = false then ⟨false, false⟩
  else if loggingOk = false then ⟨false, false⟩
  else
    match starIds with
    | none => ⟨false, false⟩
    | some ids =>
      if ids.isEmpty then ⟨false, false⟩
      else
        let successful := (ids.filter fun s => (fetch s).isSome).length
        if successful > 0 then ⟨true, true⟩ else ⟨false, false⟩

/-- The process exit code of fetch_star_data.py: exit(1) when main returned
False, 0 otherwise. -/
def fetch_script_exit (configOk loggingOk : Bool) (starIds : Option (List String))
    (fetch : String → Option ℚ) : ℕ :=
  if (fetch_main configOk loggingOk starIds fetch).status then 0 else 1

/-- Modelled from the amended wording of the preprocessing contract: keep
each (time, flux, uncertainty) sample exactly when neither its timestamp nor
its brightness is NaN; the uncertainty entry is carried along without any
check of its own, so a NaN (or infinite) uncertainty survives. -/
def specClean (time flux fluxErr : List Val) : ProcessedSeries :=
  ⟨((time.zip (flux.zip fluxErr)).filter fun x => (!x.1.isnan) && (!x.2.1.isnan)).map
      fun x => x.1,
   ((time.zip (flux.zip fluxErr)).filter fun x => (!x.1.isnan) && (!x.2.1.isnan)).map
      fun x => x.2.1,
   ((time.zip (flux.zip fluxErr)).filter fun x => (!x.1.isnan) && (!x.2.1.isnan)).map
      fun x => x.2.2⟩

section Lemmas

lemma pValid_length (flux time : List Val) :
    (pValid flux time).length = min flux.length time.length :=
  List.length_zipWith _ _ _

lemma aValid_length (time flux : List Val) :
    (aValid time flux).length = min time.length flux.length :=
  List.length_zipWith _ _ _

lemma boolMask_length_eq :
    ∀ (mask : List Bool) (xs ys : List Val), xs.length = ys.length →
      (boolMask mask xs).length = (boolMask mask ys).length := by
  intro mask
  induction mask with
  | nil => intro xs ys _; rfl
  | cons b m ih =>
    intro xs ys h
    cases xs with
    | nil => cases ys with
      | nil => rfl
      | cons y ys => simp at h
    | cons x xs =>
      cases ys with
      | nil => simp at h
      | cons y ys =>
        have h' : xs.length = ys.length := by simpa using h
        cases b <;> simp [boolMask, List.zip_cons_cons] <;>
          simpa [boolMask] using ih xs ys h'

lemma boolMask_length_count :
    ∀ (mask : List Bool) (xs : List Val), mask.length = xs.length →
      (boolMask mask xs).length = mask.count true := by
  intro mask
  induction mask with
  | nil => intro xs _; rfl
  | cons b m ih =>
    intro xs h
    cases xs with
    | nil => simp at h
    | cons x xs =>
      have h' : m.length = xs.length := by simpa using h
      cases b <;> simp [boolMask, List.zip_cons_cons, List.count_cons] <;>
        simpa [boolMask] using ih xs h'

end Lemmas

section ClaimC1

/-- Claim C1: run_bls on any input with an empty sequence, mismatched
sequence lengths, or an effective period range whose start is not strictly
below its end, returns the candidate record whose four fields are all the
absent marker; the embedding is a total function (the source wraps the whole
body in a try/except returning empty_results), so no exception escapes. -/
theorem C1_degenerate_detection_absent (time flux fluxErr : List Val) (cfg : Config)
    (search : Search)
    (h : time = [] ∨ flux = [] ∨ fluxErr = [] ∨ time.length ≠ flux.length ∨
      flux.length ≠ fluxErr.length ∨
      (effectivePeriodRange cfg).1 ≥ (effectivePeriodRange cfg).2) :
    run_bls time flux fluxErr cfg search = ⟨none, none, none, none⟩ := by
  unfold run_bls
  split_ifs with h1 h2 h3
  · rfl
  · rfl
  · rfl
  · exfalso
    rcases h with h | h | h | h | h | h
    · exact h1 (Or.inl (by simp [h]))
    · exact h1 (Or.inr (Or.inl (by simp [h])))
    · exact h1 (Or.inr (Or.inr (by simp [h])))
    · exact h2 (Or.inl h)
    · exact h2 (Or.inr h)
    · exact h3 h

/-- Witness for C1 at the empty input and an empty configuration. -/
theorem C1_degenerate_detection_absent_witness :
    run_bls [] [] [] ⟨none⟩ (fun _ _ _ _ => none) = ⟨none, none, none, none⟩ :=
  C1_degenerate_detection_absent [] [] [] ⟨none⟩ (fun _ _ _ _ => none) (Or.inl rfl)

end ClaimC1

section ClaimC2

/-- Claim C2 (code bug): evaluated at a raw series whose validity mask
selects zero samples (one sample with NaN brightness), the pipeline
preprocessor process_lightcurve succeeds and persists the empty triplet,
while the manual extraction script of the same module fails on exactly this
condition, as the spec demands of preprocessing. -/
theorem C2_empty_mask_reported_success :
    processLightcurve (Col.one [Val.num 0]) (Col.one [Val.nan]) (Col.one [Val.num 1])
      = some ⟨[], [], []⟩ ∧
    manualExtract (Col.one [Val.num 0]) [Val.nan] [Val.num 1] = none := by
  exact ⟨rfl, rfl⟩

end ClaimC2

section ClaimC10

/-- Claim C10: when the configuration lacks the bls_parameters key or the
period_range or duration_range entries under it, run_bls does not fail for
that reason: each missing entry falls back to its built-in default (period
range (1/2, 30), duration range (1/100, 1/10)) and the search is invoked
with the effective duration range. -/
theorem C10_missing_config_uses_defaults (time flux fluxErr : List Val) (cfg : Config)
    (search : Search)
    (h1 : time ≠ []) (h2 : flux ≠ []) (h3 : fluxErr ≠ [])
    (h4 : time.length = flux.length) (h5 : flux.length = fluxErr.length)
    (hmiss : (cfg.bls_parameters.getD ⟨none, none⟩).period_range = none ∨
      (cfg.bls_parameters.getD ⟨none, none⟩).duration_range = none)
    (hvalid : (effectivePeriodRange cfg).1 < (effectivePeriodRange cfg).2) :
    run_bls time flux fluxErr cfg search
      = extractRecord (search time flux fluxErr (effectiveDurationRange cfg)) ∧
    ((cfg.bls_parameters.getD ⟨none, none⟩).period_range = none →
      effectivePeriodRange cfg = (1/2, 30)) ∧
    ((cfg.bls_parameters.getD ⟨none, none⟩).duration_range = none →
      effectiveDurationRange cfg = (1/100, 1/10)) := by
  refine ⟨?_, ?_, ?_⟩
  · have hA : ¬(time.length = 0 ∨ flux.length = 0 ∨ fluxErr.length = 0) := by
      simp [List.length_eq_zero, h1, h2, h3]
    have hB : ¬(time.length ≠ flux.length ∨ flux.length ≠ fluxErr.length) := by
      simp [h4, h5]
    have hC : ¬((effectivePeriodRange cfg).1 ≥ (effectivePeriodRange cfg).2) :=
      not_le.mpr hvalid
    unfold run_bls
    rw [if_neg hA, if_neg hB, if_neg hC]
  · intro hp
    simp [effectivePeriodRange, hp]
  · intro hd
    simp [effectiveDurationRange, hd]

/-- Witness for C10 at a one-sample series and a configuration missing the
whole bls_parameters document. -/
theorem C10_missing_config_uses_defaults_witness :
    run_bls [Val.num 1] [Val.num 1] [Val.num 1] ⟨none⟩ (fun _ _ _ _ => some (3, 2, 1, 5))
      = ⟨some 3, some 2, some 1, some 5⟩ ∧
    effectiveDurationRange ⟨none⟩ = (1/100, 1/10) := by
  have h := C10_missing_config_uses_defaults [Val.num 1] [Val.num 1] [Val.num 1] ⟨none⟩
    (fun _ _ _ _ => some (3, 2, 1, 5)) (by decide) (by decide) (by decide) rfl rfl
    (Or.inl rfl) (by norm_num [effectivePeriodRange])
  exact ⟨h.1.trans rfl, h.2.2 rfl⟩

end ClaimC10

section Lemmas2

lemma boolMask_cons (b : Bool) (m : List Bool) (x : Val) (xs : List Val) :
    boolMask (b :: m) (x :: xs) = if b then x :: boolMask m xs else boolMask m xs := by
  cases b <;> simp [boolMask, List.zip_cons_cons, List.filterMap_cons]

lemma specClean_cons (tv fv ev : Val) (t f e : List Val) :
    specClean (tv :: t) (fv :: f) (ev :: e) =
      if ((!tv.isnan) && (!fv.isnan)) = true then
        ⟨tv :: (specClean t f e).time, fv :: (specClean t f e).flux,
          ev :: (specClean t f e).fluxErr⟩
      else specClean t f e := by
  by_cases h : ((!tv.isnan) && (!fv.isnan)) = true <;>
    simp [specClean, List.zip_cons_cons, List.filter_cons, h]

lemma clean_eq_specClean :
    ∀ (t f e : List Val), t.length = f.length → f.length = e.length →
      boolMask (pValid f t) t = (specClean t f e).time ∧
      boolMask (pValid f t) f = (specClean t f e).flux ∧
      boolMask (pValid f t) e = (specClean t f e).fluxErr := by
  intro t
  induction t with
  | nil =>
    intro f e h1 h2
    have hf : f = [] := List.length_eq_zero.mp (by simpa using h1.symm)
    subst hf
    have he : e = [] := List.length_eq_zero.mp (by simpa using h2.symm)
    subst he
    exact ⟨rfl, rfl, rfl⟩
  | cons tv t ih =>
    intro f e h1 h2
    cases f with
    | nil => simp at h1
    | cons fv f =>
      cases e with
      | nil => simp at h2
      | cons ev e =>
        obtain ⟨i1, i2, i3⟩ := ih f e (by simpa using h1) (by simpa using h2)
        have hp : pValid (fv :: f) (tv :: t) = ((!fv.isnan) && (!tv.isnan)) :: pValid f t :=
          rfl
        have hcomm : ((!fv.isnan) && (!tv.isnan)) = ((!tv.isnan) && (!fv.isnan)) :=
          Bool.and_comm _ _
        rw [hp, hcomm, boolMask_cons, boolMask_cons, boolMask_cons, specClean_cons]
        by_cases hb : ((!tv.isnan) && (!fv.isnan)) = true
        · simp [hb, i1, i2, i3]
        · simp [hb, i1, i2, i3]

end Lemmas2

section ClaimC3

/-- Claim C3 counterexample: a sample whose timestamp is positive infinity is
non-finite but also non-NaN, so the preprocessing mask keeps it; the claim
that a sample is kept exactly when timestamp and brightness are finite is
therefore false at this input. -/
theorem C3_infinite_time_kept_counterexample :
    processLightcurve (Col.one [Val.inf]) (Col.one [Val.num 1]) (Col.one [Val.num 2])
      = some ⟨[Val.inf], [Val.num 1], [Val.num 2]⟩ ∧
    Val.isfinite Val.inf = false := by
  exact ⟨rfl, rfl⟩

/-- Claim C3 as amended: the validity mask keeps a sample exactly when
neither its timestamp nor its brightness is NaN (infinities count as valid),
the one mask is applied uniformly to all three sequences, and the
uncertainty sequence is never checked itself, so a NaN uncertainty survives
into the persisted series. -/
theorem C3_mask_is_nonNaN_and_uniform (t f e : List Val)
    (h1 : t.length = f.length) (h2 : f.length = e.length) :
    processLightcurve (Col.one t) (Col.one f) (Col.one e) = some (specClean t f e) ∧
    (specClean [Val.num 0] [Val.num 1] [Val.nan]).fluxErr = [Val.nan] := by
  constructor
  · obtain ⟨i1, i2, i3⟩ := clean_eq_specClean t f e h1 h2
    have hv : (pValid f t).length = e.length := by
      rw [pValid_length, ← h1, min_self, h1, h2]
    unfold processLightcurve
    simp only [Col.flatten]
    rw [if_neg (by simp [h1]), if_neg (by simp [hv])]
    rw [i1, i2, i3]
  · rfl

/-- Witness for the amended C3 at a concrete three-sample series containing a
NaN brightness, a NaN uncertainty, and an infinite timestamp. -/
theorem C3_mask_is_nonNaN_and_uniform_witness :
    processLightcurve (Col.one [Val.num 0, Val.nan, Val.inf])
        (Col.one [Val.num 1, Val.num 2, Val.num 3])
        (Col.one [Val.nan, Val.num 4, Val.num 5])
      = some (specClean [Val.num 0, Val.nan, Val.inf]
          [Val.num 1, Val.num 2, Val.num 3] [Val.nan, Val.num 4, Val.num 5]) :=
  (C3_mask_is_nonNaN_and_uniform [Val.num 0, Val.nan, Val.inf]
    [Val.num 1, Val.num 2, Val.num 3] [Val.nan, Val.num 4, Val.num 5] rfl rfl).1

end ClaimC3

section Lemmas3

lemma jget_eq_default_of_not_mem (obj : Jobj) (key : String) (d : Jval)
    (h : ∀ kv ∈ obj, kv.1 ≠ key) : jget obj key d = d := by
  unfold jget
  have hn : obj.find? (fun kv => kv.1 == key) = none := by
    rw [List.find?_eq_none]
    intro kv hkv
    simpa using h kv hkv
  rw [hn]

lemma jget_eq_val_of_mem_nodup :
    ∀ (obj : Jobj) (key : String) (v d : Jval),
      (obj.map Prod.fst).Nodup → (key, v) ∈ obj → jget obj key d = v := by
  intro obj
  induction obj with
  | nil =>
    intro key v d _ hmem
    simp at hmem
  | cons kv rest ih =>
    intro key v d hnd hmem
    have hnd' : kv.1 ∉ rest.map Prod.fst ∧ (rest.map Prod.fst).Nodup := by
      simpa [List.nodup_cons] using hnd
    rcases List.mem_cons.mp hmem with h | h
    · rw [← h]
      unfold jget
      rw [List.find?_cons_of_pos _ (by simp)]
    · have hne : kv.1 ≠ key := by
        intro he
        exact hnd'.1 (he ▸ List.mem_map.mpr ⟨(key, v), h, rfl⟩)
      unfold jget
      rw [List.find?_cons_of_neg _ (by simp [hne])]
      exact ih key v d hnd'.2 h

end Lemmas3

section ClaimC4

/-- Claim C4 counterexample: a result record that carries the explicit null
marker in all four fields is rendered as four nulls, not four zeros — the
dict lookup substitutes its default only for a missing key, never for a
stored null, so the claim that null values are replaced by 0 before plotting
is false at this record. -/
theorem C4_null_fields_not_substituted :
    generate_visualization
        [("period", Jval.null), ("duration", Jval.null),
         ("depth", Jval.null), ("power", Jval.null)]
      = [Jval.null, Jval.null, Jval.null, Jval.null] ∧
    Jval.null ≠ Jval.num 0 := by
  exact ⟨rfl, by decide⟩

/-- Claim C4 as amended, per field: for every result record (with unique
keys, as in any JSON object) and every one of the four plotted positions,
the value rendered at that position is the number 0 when that field's key is
missing from the record, and is the stored value when the key is present —
in particular a stored null is passed through to the plot as null. The two
conditions are per field, so records mixing missing, null and numeric fields
are covered. -/
theorem C4_substitution_only_for_missing_keys (results : Jobj) (i : ℕ) (k : String)
    (hik : vizKeys[i]? = some k) :
    ((∀ kv ∈ results, kv.1 ≠ k) →
      (generate_visualization results)[i]? = some (Jval.num 0)) ∧
    (∀ v : Jval, (results.map Prod.fst).Nodup → (k, v) ∈ results →
      (generate_visualization results)[i]? = some v) := by
  have hcases : (i = 0 ∧ k = "period") ∨ (i = 1 ∧ k = "duration") ∨
      (i = 2 ∧ k = "depth") ∨ (i = 3 ∧ k = "power") := by
    rcases i with _ | _ | _ | _ | i
    · exact Or.inl ⟨rfl, (Option.some.inj hik).symm⟩
    · exact Or.inr (Or.inl ⟨rfl, (Option.some.inj hik).symm⟩)
    · exact Or.inr (Or.inr (Or.inl ⟨rfl, (Option.some.inj hik).symm⟩))
    · exact Or.inr (Or.inr (Or.inr ⟨rfl, (Option.some.inj hik).symm⟩))
    · exact Option.noConfusion hik
  rcases hcases with ⟨hi, hk⟩ | ⟨hi, hk⟩ | ⟨hi, hk⟩ | ⟨hi, hk⟩ <;> subst hi <;> subst hk
  · refine ⟨fun h => ?_, fun v hnd hmem => ?_⟩
    · have hr : (generate_visualization results)[0]?
          = some (jget results "period" (Jval.num 0)) := rfl
      rw [hr, jget_eq_default_of_not_mem _ _ _ h]
    · have hr : (generate_visualization results)[0]?
          = some (jget results "period" (Jval.num 0)) := rfl
      rw [hr, jget_eq_val_of_mem_nodup _ _ _ _ hnd hmem]
  · refine ⟨fun h => ?_, fun v hnd hmem => ?_⟩
    · have hr : (generate_visualization results)[1]?
          = some (jget results "duration" (Jval.num 0)) := rfl
      rw [hr, jget_eq_default_of_not_mem _ _ _ h]
    · have hr : (generate_visualization results)[1]?
          = some (jget results "duration" (Jval.num 0)) := rfl
      rw [hr, jget_eq_val_of_mem_nodup _ _ _ _ hnd hmem]
  · refine ⟨fun h => ?_, fun v hnd hmem => ?_⟩
    · have hr : (generate_visualization results)[2]?
          = some (jget results "depth" (Jval.num 0)) := rfl
      rw [hr, jget_eq_default_of_not_mem _ _ _ h]
    · have hr : (generate_visualization results)[2]?
          = some (jget results "depth" (Jval.num 0)) := rfl
      rw [hr, jget_eq_val_of_mem_nodup _ _ _ _ hnd hmem]
  · refine ⟨fun h => ?_, fun v hnd hmem => ?_⟩
    · have hr : (generate_visualization results)[3]?
          = some (jget results "power" (Jval.num 0)) := rfl
      rw [hr, jget_eq_default_of_not_mem _ _ _ h]
    · have hr : (generate_visualization results)[3]?
          = some (jget results "power" (Jval.num 0)) := rfl
      rw [hr, jget_eq_val_of_mem_nodup _ _ _ _ hnd hmem]

/-- Witness for the amended C4 at a mixed record — period stored as null,
power stored as a number, duration and depth missing: the null passes
through, the number is kept, and each missing key is substituted with 0. -/
theorem C4_substitution_only_for_missing_keys_witness :
    (generate_visualization [("period", Jval.null), ("power", Jval.num 3)])[0]?
      = some Jval.null ∧
    (generate_visualization [("period", Jval.null), ("power", Jval.num 3)])[1]?
      = some (Jval.num 0) ∧
    (generate_visualization [("period", Jval.null), ("power", Jval.num 3)])[2]?
      = some (Jval.num 0) ∧
    (generate_visualization [("period", Jval.null), ("power", Jval.num 3)])[3]?
      = some (Jval.num 3) := by
  refine ⟨?_, ?_, ?_, ?_⟩
  · exact (C4_substitution_only_for_missing_keys _ 0 "period" rfl).2 Jval.null
      (by decide) (by decide)
  · exact (C4_substitution_only_for_missing_keys _ 1 "duration" rfl).1 (by decide)
  · exact (C4_substitution_only_for_missing_keys _ 2 "depth" rfl).1 (by decide)
  · exact (C4_substitution_only_for_missing_keys _ 3 "power" rfl).2 (Jval.num 3)
      (by decide) (by decide)

end ClaimC4

section ClaimC5

/-- Claim C5 counterexample: with all three input files present and every
sink unreachable, db_writer attempts and records failure of both object
store uploads and of the metadata insert, yet still reaches the
workflow-completed log line and exits 0 — the publish step never reports
failure, contradicting the claim that it fails when both sinks fail. -/
theorem C5_all_sinks_fail_reported_success :
    db_writer_main ⟨true, true, true, true, false, false, false⟩
      = ⟨some false, some false, some false, 0, true⟩ :=
  rfl

/-- Claim C5 as amended: each sink call is attempted independently (each
upload and the insert are all attempted whatever the other outcomes are),
but the publish step discards the three per-sink results: it always exits 0
and always reports completion, regardless of any sink failing. -/
theorem C5_sinks_independent_outcome_ignored (env : SinkEnv)
    (h1 : env.processedPngExists = true) (h2 : env.metricsPngExists = true)
    (h3 : env.resultsJsonExists = true) (h4 : env.jsonReadOk = true) :
    (db_writer_main env).minioProcessed = some env.minioProcessedOk ∧
    (db_writer_main env).minioVisualize = some env.minioVisualizeOk ∧
    (db_writer_main env).oracleInsert = some env.oracleOk ∧
    (db_writer_main env).exitCode = 0 ∧
    (db_writer_main env).completedLog = true := by
  simp [db_writer_main, upload_to_minio, insert_results_into_oracle, h1, h2, h3, h4]

/-- Witness for the amended C5 at an environment where both uploads fail and
the insert fails, with every file present. -/
theorem C5_sinks_independent_outcome_ignored_witness :
    (db_writer_main ⟨true, true, true, true, false, true, false⟩).oracleInsert = some false ∧
    (db_writer_main ⟨true, true, true, true, false, true, false⟩).exitCode = 0 ∧
    (db_writer_main ⟨true, true, true, true, false, true, false⟩).completedLog = true := by
  have h := C5_sinks_independent_outcome_ignored ⟨true, true, true, true, false, true, false⟩
    rfl rfl rfl rfl
  exact ⟨h.2.2.1, h.2.2.2.1, h.2.2.2.2⟩

end ClaimC5

section ClaimC6

/-- Claim C6: whenever the three flattened input sequences have equal
length, preprocessing succeeds and the persisted ProcessedSeries has three
sequences of equal length; moreover applying one boolean mask to
equal-length sequences yields equal-length results for every mask value,
including masks that select nothing. -/
theorem C6_length_invariant (tc fc ec : Col)
    (h1 : tc.flatten.length = fc.flatten.length)
    (h2 : fc.flatten.length = ec.flatten.length) :
    (∃ ps : ProcessedSeries, processLightcurve tc fc ec = some ps ∧
       ps.time.length = ps.flux.length ∧ ps.flux.length = ps.fluxErr.length) ∧
    (∀ (mask : List Bool) (xs ys : List Val), xs.length = ys.length →
       (boolMask mask xs).length = (boolMask mask ys).length) := by
  constructor
  · have hv : (pValid fc.flatten tc.flatten).length = ec.flatten.length := by
      rw [pValid_length, ← h1, min_self]
      exact h1.trans h2
    refine ⟨⟨boolMask (pValid fc.flatten tc.flatten) tc.flatten,
      boolMask (pValid fc.flatten tc.flatten) fc.flatten,
      boolMask (pValid fc.flatten tc.flatten) ec.flatten⟩, ?_, ?_, ?_⟩
    · unfold processLightcurve
      rw [if_neg (by simp [h1]), if_neg (by simp [hv])]
    · exact boolMask_length_eq _ _ _ h1
    · exact boolMask_length_eq _ _ _ h2
  · exact boolMask_length_eq

/-- Witness for C6 at a one-sample series whose uncertainty is NaN: the
mask keeps the sample and all three output lengths agree. -/
theorem C6_length_invariant_witness :
    ∃ ps : ProcessedSeries,
      processLightcurve (Col.one [Val.num 1]) (Col.one [Val.num 2]) (Col.one [Val.nan])
        = some ps ∧
      ps.time.length = ps.flux.length ∧ ps.flux.length = ps.fluxErr.length :=
  (C6_length_invariant (Col.one [Val.num 1]) (Col.one [Val.num 2]) (Col.one [Val.nan])
    rfl rfl).1

end ClaimC6

section Lemmas4

lemma boolMask_all_true :
    ∀ (m : List Bool) (xs : List Val), m.length = xs.length →
      (∀ b ∈ m, b = true) → boolMask m xs = xs := by
  intro m
  induction m with
  | nil =>
    intro xs h _
    have : xs = [] := List.length_eq_zero.mp h.symm
    subst this
    rfl
  | cons b m ih =>
    intro xs h hall
    cases xs with
    | nil => simp at h
    | cons x xs =>
      have hb : b = true := hall b (by simp)
      subst hb
      rw [boolMask_cons, if_pos rfl, ih xs (by simpa using h)
        (fun c hc => hall c (by simp [hc]))]

lemma pValid_mem_true :
    ∀ (f t : List Val), (∀ v ∈ f, v.isnan = false) → (∀ v ∈ t, v.isnan = false) →
      ∀ b ∈ pValid f t, b = true := by
  intro f
  induction f with
  | nil =>
    intro t _ _ b hb
    simp [pValid] at hb
  | cons fv f ih =>
    intro t hf ht b hb
    cases t with
    | nil => simp [pValid] at hb
    | cons tv t =>
      have hp : pValid (fv :: f) (tv :: t)
          = ((!fv.isnan) && (!tv.isnan)) :: pValid f t := rfl
      rw [hp] at hb
      rcases List.mem_cons.mp hb with h | h
      · rw [h, hf fv (by simp), ht tv (by simp)]
        rfl
      · exact ih t (fun v hv => hf v (by simp [hv])) (fun v hv => ht v (by simp [hv])) b h

end Lemmas4

section ClaimC7

/-- Claim C7: preprocessing is the identity on already-clean input — for any
equal-length one-dimensional NaN-free triple, the flattening and the mask
filtering return every sequence unchanged, so preprocessing is idempotent on
its own output. -/
theorem C7_identity_on_clean_series (t f e : List Val)
    (hlen1 : t.length = f.length) (hlen2 : f.length = e.length)
    (ht : ∀ v ∈ t, v.isnan = false) (hf : ∀ v ∈ f, v.isnan = false)
    (he : ∀ v ∈ e, v.isnan = false) :
    processLightcurve (Col.one t) (Col.one f) (Col.one e) = some ⟨t, f, e⟩ := by
  have hvlen : (pValid f t).length = t.length := by
    rw [pValid_length, ← hlen1, min_self]
  have hmem := pValid_mem_true f t hf ht
  have h1 : boolMask (pValid f t) t = t := boolMask_all_true _ _ hvlen hmem
  have h2 : boolMask (pValid f t) f = f :=
    boolMask_all_true _ _ (hvlen.trans hlen1) hmem
  have h3 : boolMask (pValid f t) e = e :=
    boolMask_all_true _ _ (hvlen.trans (hlen1.trans hlen2)) hmem
  have hev : e.length = (pValid f t).length := by
    rw [hvlen]
    exact (hlen1.trans hlen2).symm
  unfold processLightcurve
  simp only [Col.flatten]
  rw [if_neg (by simp [hlen1]), if_neg (by simp [hev]), h1, h2, h3]

/-- Witness for C7 at a clean two-sample series. -/
theorem C7_identity_on_clean_series_witness :
    processLightcurve (Col.one [Val.num 1, Val.num 2]) (Col.one [Val.num 3, Val.num 4])
        (Col.one [Val.num 5, Val.num 6])
      = some ⟨[Val.num 1, Val.num 2], [Val.num 3, Val.num 4], [Val.num 5, Val.num 6]⟩ :=
  C7_identity_on_clean_series [Val.num 1, Val.num 2] [Val.num 3, Val.num 4]
    [Val.num 5, Val.num 6] rfl rfl (by decide) (by decide) (by decide)

end ClaimC7

section ClaimC8

/-- Claim C8: with configuration and logging in place, the acquisition batch
returns failure status (hence exit code 1) exactly when no identifier
fetches successfully, and it triggers the next pipeline stage exactly when
at least one identifier fetches successfully; the status is returned, never
raised, since the embedding is a total function. -/
theorem C8_zero_success_batch_failure (ids : List String) (fetch : String → Option ℚ) :
    fetch_main true true (some ids) fetch
      = (if ids.any fun s => (fetch s).isSome then ⟨true, true⟩ else ⟨false, false⟩) ∧
    fetch_script_exit true true (some ids) fetch
      = (if ids.any fun s => (fetch s).isSome then 0 else 1) := by
  have hlp : (0 < (ids.filter fun s => (fetch s).isSome).length) ↔
      (ids.any fun s => (fetch s).isSome) = true := by
    rw [List.length_pos, Ne, List.filter_eq_nil_iff, List.any_eq_true]
    push_neg
    simp
  have hmain : fetch_main true true (some ids) fetch
      = if ids.any fun s => (fetch s).isSome then ⟨true, true⟩ else ⟨false, false⟩ := by
    unfold fetch_main
    by_cases hids : ids.isEmpty
    · have hnil : ids = [] := by simpa [List.isEmpty_iff] using hids
      subst hnil
      simp
    · by_cases hany : (ids.any fun s => (fetch s).isSome) = true
      · simp [hids, hany, hlp.mpr hany]
      · have : ¬(0 < (ids.filter fun s => (fetch s).isSome).length) := fun hc =>
          hany (hlp.mp hc)
        simp [hids, hany, this]
  refine ⟨hmain, ?_⟩
  unfold fetch_script_exit
  rw [hmain]
  by_cases hany : (ids.any fun s => (fetch s).isSome) = true <;> simp [hany]

end ClaimC8

section ClaimC9

/-- Claim C9: for a well-formed series, the batch gate of analyze_transit
rejects (skips analysis, reports failure) when exactly 9 samples are valid
under the timestamp/brightness mask, and invokes detection on the masked
data when exactly 10 samples are valid: the comparison is strictly fewer
than 10 rejects. -/
theorem C9_minimum_sample_boundary (time flux fluxErr : List Val) (cfg : Config)
    (search : Search)
    (h1 : time.length = flux.length) (h2 : fluxErr.length = time.length) :
    ((aValid time flux).count true = 9 →
      analyze_transit time flux fluxErr cfg search = none) ∧
    ((aValid time flux).count true = 10 →
      analyze_transit time flux fluxErr cfg search
        = some (run_bls (boolMask (aValid time flux) time)
            (boolMask (aValid time flux) flux)
            (boolMask (aValid time flux) fluxErr) cfg search)) := by
  have hv : (aValid time flux).length = time.length := by
    rw [aValid_length, h1, min_self]
  have hmask : (boolMask (aValid time flux) time).length = (aValid time flux).count true :=
    boolMask_length_count _ _ hv
  constructor
  · intro hc
    unfold analyze_transit
    simp only []
    rw [if_neg (by simp [h1]), if_neg (by simp [h2, hv]), if_pos]
    rw [hmask, hc]
    norm_num
  · intro hc
    unfold analyze_transit
    simp only []
    rw [if_neg (by simp [h1]), if_neg (by simp [h2, hv]), if_neg]
    rw [hmask, hc]
    norm_num

/-- Witness for C9 at two concrete series: ten raw samples one of which has
NaN brightness (9 valid, rejected), and ten clean samples (10 valid,
detection invoked). -/
theorem C9_minimum_sample_boundary_witness :
    analyze_transit (List.replicate 10 (Val.num 1))
        (Val.nan :: List.replicate 9 (Val.num 1)) (List.replicate 10 (Val.num 1))
        ⟨none⟩ (fun _ _ _ _ => none) = none ∧
    analyze_transit (List.replicate 10 (Val.num 1)) (List.replicate 10 (Val.num 1))
        (List.replicate 10 (Val.num 1)) ⟨none⟩ (fun _ _ _ _ => none)
      = some (run_bls
          (boolMask (aValid (List.replicate 10 (Val.num 1)) (List.replicate 10 (Val.num 1)))
            (List.replicate 10 (Val.num 1)))
          (boolMask (aValid (List.replicate 10 (Val.num 1)) (List.replicate 10 (Val.num 1)))
            (List.replicate 10 (Val.num 1)))
          (boolMask (aValid (List.replicate 10 (Val.num 1)) (List.replicate 10 (Val.num 1)))
            (List.replicate 10 (Val.num 1))) ⟨none⟩ (fun _ _ _ _ => none)) := by
  constructor
  · exact (C9_minimum_sample_boundary _ _ _ _ _ (by decide) (by decide)).1 (by decide)
  · exact (C9_minimum_sample_boundary _ _ _ _ _ (by decide) (by decide)).2 (by decide)

end ClaimC9

end ExoTransit
